import Mathlib

/-
Shallow embedding of the trakt-mcp-go MCP server.

Source layout:
  internal/trakt/types.go    - plain records mirroring the Trakt API JSON shapes
  internal/trakt/client.go   - HTTP client; network I/O is modelled by oracle
                               functions stored in the `Client` record, one per
                               HTTP endpoint; `APIError` and the status-code
                               mapping of `do` are translated directly
  internal/mcp/types.go      - JSON-RPC and MCP protocol types
  internal/mcp/handlers.go   - the four tool handlers (authenticate,
                               search_show, get_history, log_watch)
  internal/mcp/server.go     - the dispatcher (handleMessage, dispatch,
                               handleInitialize, handleToolsList,
                               handleToolsCall) and the per-line step of
                               RunWithIO

Modelling conventions:
  - Go `int`/`int64` is `Int`; Go `float64` (only the search score) is `Rat`,
    exact for every comparison the code performs.
  - `json.RawMessage` payloads are modelled by `RawArgs`/`RawParams`: either a
    syntactically malformed byte string (every `json.Unmarshal` fails with the
    same message, as in Go) or a well-formed document together with the outcome
    of unmarshalling it into each target struct the code uses.
  - Go maps are association lists; map iteration order is unspecified in Go, so
    order-sensitive statements quantify over permutations of the entries.
  - `time.Time` values that are only ever formatted as "2006-01-02" are
    modelled as a calendar date record.
-/

namespace TraktMcp

/-! ## internal/trakt/types.go -/

structure ShowIDs where
  trakt : Int
  slug : String
  tvdb : Int
  imdb : String
  tmdb : Int
deriving DecidableEq, Repr

structure Show where
  title : String
  year : Int
  ids : ShowIDs
deriving DecidableEq, Repr

structure MovieIDs where
  trakt : Int
  slug : String
  imdb : String
  tmdb : Int
deriving DecidableEq, Repr

structure Movie where
  title : String
  year : Int
  ids : MovieIDs
deriving DecidableEq, Repr

structure EpisodeIDs where
  trakt : Int
  tvdb : Int
  imdb : String
  tmdb : Int
deriving DecidableEq, Repr

structure Episode where
  season : Int
  number : Int
  title : String
  ids : EpisodeIDs
deriving DecidableEq, Repr

/-- Go `SearchResult`; `Score` is `float64` in Go, modelled as `Rat`. The
optional payload fields keep Go's capitalized spelling because `show` is a
Lean keyword. -/
structure SearchResult where
  type : String
  score : Rat
  Show : Option Show
  Movie : Option Movie
deriving DecidableEq, Repr

/-- Calendar date, standing in for the `time.Time` field that the code only
ever formats as "2006-01-02". -/
structure Date where
  year : Int
  month : Int
  day : Int
deriving DecidableEq, Repr

structure HistoryItem where
  id : Int
  watchedAt : Date
  action : String
  type : String
  Episode : Option Episode
  Show : Option Show
  Movie : Option Movie
deriving DecidableEq, Repr

structure WatchedItem where
  watchedAt : String
  movies : List Movie
  shows : List Show
  episodes : List Episode
deriving DecidableEq, Repr

structure SyncStats where
  movies : Int
  episodes : Int
deriving DecidableEq, Repr

structure NotFound where
  movies : List Movie
  shows : List Show
  episodes : List Episode
deriving DecidableEq, Repr

structure SyncResponse where
  added : SyncStats
  deleted : SyncStats
  existing : SyncStats
  notFound : NotFound
deriving DecidableEq, Repr

structure DeviceCode where
  deviceCode : String
  userCode : String
  verificationURL : String
  expiresIn : Int
  interval : Int
deriving DecidableEq, Repr

structure Token where
  accessToken : String
  tokenType : String
  expiresIn : Int
  refreshToken : String
  scope : String
  createdAt : Int
deriving DecidableEq, Repr

/-! ## internal/trakt/client.go -/

/-- Go `APIError`: carries exactly the status code, HTTP method and request
path (and nothing else, in particular not the response body). -/
structure APIError where
  statusCode : Int
  method : String
  path : String
deriving DecidableEq, Repr

/-- `(e *APIError) IsAuthError()` -/
def APIError.isAuthError (e : APIError) : Bool :=
  e.statusCode == 401 || e.statusCode == 403

/-- `(e *APIError) IsRateLimited()` -/
def APIError.isRateLimited (e : APIError) : Bool :=
  e.statusCode == 429

/-- The status branch of `(c *Client) do`: a status `>= 400` becomes an
`APIError` built from the status, method and path only; the response body
(available to `do` at that point) is deliberately not used. A status `< 400`
produces no API error. -/
def doStatusCheck (method path : String) (statusCode : Int) (_respBody : String) :
    Option APIError :=
  if statusCode ≥ 400 then some ⟨statusCode, method, path⟩ else none

structure Config where
  clientID : String
  clientSecret : String
  accessToken : String
  refreshToken : String
deriving DecidableEq, Repr

/-- Go `Client`. The HTTP endpoints it talks to are modelled as oracle
functions, one per remote operation, each returning either an error message
(`err.Error()` in Go) or the decoded response value. `GetEpisode` has no body
under `src/` (only its caller and tests); like the other remote calls it is an
oracle here. -/
structure Client where
  config : Config
  searchFn : String → String → Except String (List SearchResult)
  getHistory : String → Int → Except String (List HistoryItem)
  addToHistory : WatchedItem → Except String SyncResponse
  getDeviceCode : Except String DeviceCode
  getEpisode : String → Int → Int → Except String Episode

/-- `(c *Client) IsConfigured()` -/
def Client.isConfigured (c : Client) : Bool :=
  c.config.clientID != ""

/-- `(c *Client) IsAuthenticated()` -/
def Client.isAuthenticated (c : Client) : Bool :=
  c.config.accessToken != ""

/-- `(c *Client) Search`: an empty search type defaults to "show,movie"
before the request is issued. -/
def Client.search (c : Client) (query searchType : String) :
    Except String (List SearchResult) :=
  if searchType == "" then c.searchFn query "show,movie"
  else c.searchFn query searchType

/-! ## Formatting helpers (Go `fmt` verbs used by the handlers) -/

/-- Go `%0*d` for a non-negative value: decimal digits left-padded with
zeros to the requested width. -/
def zeroPadNat (width : Nat) (n : Nat) : String :=
  let s := toString n
  if s.length < width then String.mk (List.replicate (width - s.length) '0') ++ s
  else s

/-- Go `%02d`: zeros are inserted after the sign, and the sign counts
towards the width. -/
def pad2 (n : Int) : String :=
  if n < 0 then "-" ++ zeroPadNat 1 (-n).toNat else zeroPadNat 2 n.toNat

/-- Go date layout "2006-01-02" applied to a calendar date. -/
def Date.format10 (d : Date) : String :=
  (if d.year < 0 then "-" ++ zeroPadNat 3 (-d.year).toNat else zeroPadNat 4 d.year.toNat)
    ++ "-" ++ pad2 d.month ++ "-" ++ pad2 d.day

/-! ## internal/mcp/types.go -/

/-- Go `Error` (JSON-RPC error object). The `Data any` field is never set
anywhere in the program and is omitted. -/
structure Error where
  code : Int
  message : String
deriving DecidableEq, Repr

def ParseError : Int := -32700
def InvalidRequest : Int := -32600
def MethodNotFound : Int := -32601
def InvalidParams : Int := -32602
def InternalError : Int := -32603

structure Implementation where
  name : String
  version : String
deriving DecidableEq, Repr

structure ToolsCapability where
  listChanged : Bool
deriving DecidableEq, Repr

structure Capabilities where
  tools : Option ToolsCapability
deriving DecidableEq, Repr

structure InitializeParams where
  protocolVersion : String
  capabilities : Capabilities
  clientInfo : Implementation
deriving DecidableEq, Repr

structure InitializeResult where
  protocolVersion : String
  capabilities : Capabilities
  serverInfo : Implementation
deriving DecidableEq, Repr

/-- Go `JSONSchema` (recursive via `Properties`). -/
inductive JSONSchema where
  | mk (type : String) (properties : List (String × JSONSchema))
      (required : List String) (description : String)
      (enumVals : List String) (additionalProperties : Bool)

structure Tool where
  name : String
  description : String
  inputSchema : JSONSchema

structure ToolsListResult where
  tools : List Tool

structure Content where
  type : String
  text : String
deriving DecidableEq, Repr

/-- `TextContent(text string)` -/
def TextContent (text : String) : Content :=
  ⟨"text", text⟩

structure ToolCallResult where
  content : List Content
  isError : Bool
deriving DecidableEq, Repr

/-- `ErrorContent(err error)`; the Go `error` argument is modelled by its
`Error()` message. -/
def ErrorContent (msg : String) : ToolCallResult :=
  ⟨[TextContent msg], true⟩

/-! ## json.RawMessage models

A raw JSON payload is either syntactically malformed — in Go every
`json.Unmarshal` on it fails, with the same message regardless of the target
struct (this also covers a `nil`/absent `RawMessage`) — or a well-formed
document, recorded together with the outcome of unmarshalling it into each
target struct the program uses. -/

structure SearchArgs where
  query : String
  type : String
deriving DecidableEq, Repr

structure HistoryArgs where
  type : String
  limit : Int
deriving DecidableEq, Repr

structure LogWatchArgs where
  type : String
  showName : String
  season : Int
  episode : Int
  movieName : String
  watchedAt : String
deriving DecidableEq, Repr

/-- The unmarshal outcomes of one well-formed JSON argument document, for the
three argument structs the tool handlers decode into. -/
structure ArgsDoc where
  searchArgs : Except String SearchArgs
  historyArgs : Except String HistoryArgs
  logWatchArgs : Except String LogWatchArgs

inductive RawArgs where
  | malformed (msg : String) : RawArgs
  | wellFormed (doc : ArgsDoc) : RawArgs

def unmarshalSearchArgs : RawArgs → Except String SearchArgs
  | .malformed msg => .error msg
  | .wellFormed doc => doc.searchArgs

def unmarshalHistoryArgs : RawArgs → Except String HistoryArgs
  | .malformed msg => .error msg
  | .wellFormed doc => doc.historyArgs

def unmarshalLogWatchArgs : RawArgs → Except String LogWatchArgs
  | .malformed msg => .error msg
  | .wellFormed doc => doc.logWatchArgs

structure ToolCallParams where
  name : String
  arguments : RawArgs

/-- The unmarshal outcomes of one well-formed JSON params document, for the
two params structs the dispatcher decodes into. -/
structure ParamsDoc where
  initializeParams : Except String InitializeParams
  toolCallParams : Except String ToolCallParams

inductive RawParams where
  | malformed (msg : String) : RawParams
  | wellFormed (doc : ParamsDoc) : RawParams

def unmarshalInitializeParams : RawParams → Except String InitializeParams
  | .malformed msg => .error msg
  | .wellFormed doc => doc.initializeParams

def unmarshalToolCallParams : RawParams → Except String ToolCallParams
  | .malformed msg => .error msg
  | .wellFormed doc => doc.toolCallParams

/-! ## internal/mcp/handlers.go -/

/-- Go `ToolHandler`: `(ctx, args) → (ToolCallResult, error)`. The context is
irrelevant to the translated logic; the Go `error` return is an optional
message. -/
def ToolHandler : Type :=
  RawArgs → ToolCallResult × Option String

/-- The message rendered by `makeAuthenticateHandler` on success. -/
def authMessage (code : DeviceCode) : String :=
  "🔐 **Trakt Authentication**\n\nPlease visit: " ++ code.verificationURL
    ++ "\nEnter code: **" ++ code.userCode
    ++ "**\n\nThe code expires in " ++ toString code.expiresIn
    ++ " seconds.\n\nAfter authorizing, the access token will be displayed. Set it as TRAKT_ACCESS_TOKEN environment variable."

def makeAuthenticateHandler (client : Client) : ToolHandler := fun _args =>
  if !client.isConfigured then
    (⟨[TextContent "Error: TRAKT_CLIENT_ID and TRAKT_CLIENT_SECRET environment variables must be set"], true⟩, none)
  else
    match client.getDeviceCode with
    | .error e => (ErrorContent e, none)
    | .ok code => (⟨[TextContent (authMessage code)], false⟩, none)

/-- The `for i, r := range results` rendering loop of `makeSearchHandler`:
at most 10 entries, then a truncation notice and break. -/
def searchOutputLoop (total : Nat) : Nat → List SearchResult → String
  | _, [] => ""
  | i, r :: rs =>
    if i ≥ 10 then "\n... and " ++ toString (total - 10) ++ " more results"
    else
      (if r.type == "show" then
        match r.Show with
        | some s =>
            "📺 **" ++ s.title ++ "** (" ++ toString s.year ++ ") - Trakt ID: "
              ++ toString s.ids.trakt ++ "\n"
        | none => ""
      else if r.type == "movie" then
        match r.Movie with
        | some m =>
            "🎬 **" ++ m.title ++ "** (" ++ toString m.year ++ ") - Trakt ID: "
              ++ toString m.ids.trakt ++ "\n"
        | none => ""
      else "") ++ searchOutputLoop total (i + 1) rs

def makeSearchHandler (client : Client) : ToolHandler := fun args =>
  match unmarshalSearchArgs args with
  | .error e => (ErrorContent ("invalid arguments: " ++ e), none)
  | .ok a =>
    if a.query == "" then
      (⟨[TextContent "Error: query is required"], true⟩, none)
    else
      match client.search a.query a.type with
      | .error e => (ErrorContent e, none)
      | .ok results =>
        if results.length == 0 then
          (⟨[TextContent ("No results found for: " ++ a.query)], false⟩, none)
        else
          (⟨[TextContent (searchOutputLoop results.length 0 results)], false⟩, none)

/-- The rendering loop of `makeGetHistoryHandler`; items whose payload does
not match their declared type are skipped. -/
def historyOutputLoop : List HistoryItem → String
  | [] => ""
  | h :: hs =>
    (if h.type == "episode" then
      match h.Show, h.Episode with
      | some sh, some ep =>
          "📺 " ++ sh.title ++ " S" ++ pad2 ep.season ++ "E" ++ pad2 ep.number
            ++ " - " ++ ep.title ++ " (" ++ h.watchedAt.format10 ++ ")\n"
      | _, _ => ""
    else if h.type == "movie" then
      match h.Movie with
      | some m => "🎬 " ++ m.title ++ " (" ++ h.watchedAt.format10 ++ ")\n"
      | none => ""
    else "") ++ historyOutputLoop hs

def makeGetHistoryHandler (client : Client) : ToolHandler := fun args =>
  if !client.isAuthenticated then
    (⟨[TextContent "Error: Not authenticated. Use the authenticate tool first."], true⟩, none)
  else
    match unmarshalHistoryArgs args with
    | .error e => (ErrorContent ("invalid arguments: " ++ e), none)
    | .ok a =>
      let limit := if a.limit ≤ 0 then 10 else a.limit
      match client.getHistory a.type limit with
      | .error e => (ErrorContent e, none)
      | .ok history =>
        if history.length == 0 then
          (⟨[TextContent "No watch history found."], false⟩, none)
        else
          (⟨[TextContent (historyOutputLoop history)], false⟩, none)

/-- One candidate line of the disambiguation message in `logEpisode`
(entries without a show payload contribute nothing). -/
def showBullet (r : SearchResult) : String :=
  match r.Show with
  | some s =>
      "• " ++ s.title ++ " (" ++ toString s.year ++ ") - Trakt ID: "
        ++ toString s.ids.trakt ++ "\n"
  | none => ""

/-- The `for i, r := range results` loop of the ambiguous-show message:
at most 5 candidates, then a truncation note and break. -/
def multipleShowsLoop (total : Nat) : Nat → List SearchResult → String
  | _, [] => ""
  | i, r :: rs =>
    if i ≥ 5 then "... and " ++ toString (total - 5) ++ " more\n"
    else showBullet r ++ multipleShowsLoop total (i + 1) rs

def multipleShowsMsg (showName : String) (results : List SearchResult) : String :=
  "Multiple shows found for '" ++ showName
    ++ "'. Please be more specific or use the year:\n"
    ++ multipleShowsLoop results.length 0 results

/-- The watched item submitted by the episode path: only the resolved
episode's Trakt id and the caller-supplied timestamp; all other fields are Go
zero values. -/
def episodeSyncItem (watchedAt : String) (ep : Episode) : WatchedItem :=
  ⟨watchedAt, [], [], [⟨0, 0, "", ⟨ep.ids.trakt, 0, "", 0⟩⟩]⟩

/-- Tail of `logEpisode` after the show has been resolved: episode lookup,
history sync, and interpretation of the sync counts (added first, then
existing, then the unknown-reason fallback). -/
def logEpisodeCommit (client : Client) (sh : Show) (season episode : Int)
    (watchedAt : String) : ToolCallResult :=
  match client.getEpisode (toString sh.ids.trakt) season episode with
  | .error _ =>
    ⟨[TextContent ("Episode S" ++ pad2 season ++ "E" ++ pad2 episode
        ++ " not found for " ++ sh.title)], true⟩
  | .ok ep =>
    match client.addToHistory (episodeSyncItem watchedAt ep) with
    | .error e => ErrorContent e
    | .ok resp =>
      if resp.added.episodes > 0 then
        ⟨[TextContent ("✅ Logged: **" ++ sh.title ++ "** S" ++ pad2 season
            ++ "E" ++ pad2 episode ++ " - " ++ ep.title)], false⟩
      else if resp.existing.episodes > 0 then
        ⟨[TextContent ("ℹ️ Already watched: **" ++ sh.title ++ "** S" ++ pad2 season
            ++ "E" ++ pad2 episode ++ " - " ++ ep.title)], false⟩
      else
        ⟨[TextContent "⚠️ Episode was not added (unknown reason)"], false⟩

/-- `logEpisode` after its two validation checks: search, the
zero-results / nil-first-payload not-found check, the ambiguity check, then
`logEpisodeCommit` on the top result. -/
def logEpisodeResolve (client : Client) (showName : String)
    (season episode : Int) (watchedAt : String) : ToolCallResult :=
  match client.search showName "show" with
  | .error e => ErrorContent e
  | .ok results =>
    match results with
    | [] => ⟨[TextContent ("No show found for: " ++ showName)], true⟩
    | r0 :: rest =>
      match r0.Show with
      | none => ⟨[TextContent ("No show found for: " ++ showName)], true⟩
      | some sh =>
        if (r0 :: rest).length > 1 && r0.score < 1000 then
          ⟨[TextContent (multipleShowsMsg showName (r0 :: rest))], true⟩
        else
          logEpisodeCommit client sh season episode watchedAt

/-- `logEpisode`: Season 0 is valid (specials), but episode must be
positive. -/
def logEpisode (client : Client) (showName : String) (season episode : Int)
    (watchedAt : String) : ToolCallResult :=
  if showName == "" then
    ⟨[TextContent "Error: showName is required for episodes"], true⟩
  else if season < 0 || episode ≤ 0 then
    ⟨[TextContent "Error: season must be >= 0 and episode must be positive"], true⟩
  else
    logEpisodeResolve client showName season episode watchedAt

/-- One candidate line of the disambiguation message in `logMovie`. -/
def movieBullet (r : SearchResult) : String :=
  match r.Movie with
  | some m =>
      "• " ++ m.title ++ " (" ++ toString m.year ++ ") - Trakt ID: "
        ++ toString m.ids.trakt ++ "\n"
  | none => ""

def multipleMoviesLoop (total : Nat) : Nat → List SearchResult → String
  | _, [] => ""
  | i, r :: rs =>
    if i ≥ 5 then "... and " ++ toString (total - 5) ++ " more\n"
    else movieBullet r ++ multipleMoviesLoop total (i + 1) rs

def multipleMoviesMsg (movieName : String) (results : List SearchResult) : String :=
  "Multiple movies found for '" ++ movieName
    ++ "'. Please be more specific or use the year:\n"
    ++ multipleMoviesLoop results.length 0 results

/-- The watched item submitted by the movie path. -/
def movieSyncItem (watchedAt : String) (mv : Movie) : WatchedItem :=
  ⟨watchedAt, [⟨"", 0, ⟨mv.ids.trakt, "", "", 0⟩⟩], [], []⟩

/-- Tail of `logMovie` after the movie has been resolved. -/
def logMovieCommit (client : Client) (mv : Movie) (watchedAt : String) :
    ToolCallResult :=
  match client.addToHistory (movieSyncItem watchedAt mv) with
  | .error e => ErrorContent e
  | .ok resp =>
    if resp.added.movies > 0 then
      ⟨[TextContent ("✅ Logged: **" ++ mv.title ++ "** (" ++ toString mv.year ++ ")")], false⟩
    else if resp.existing.movies > 0 then
      ⟨[TextContent ("ℹ️ Already watched: **" ++ mv.title ++ "** (" ++ toString mv.year ++ ")")], false⟩
    else
      ⟨[TextContent "⚠️ Movie was not added (unknown reason)"], false⟩

/-- `logMovie` after its validation check. -/
def logMovieResolve (client : Client) (movieName : String) (watchedAt : String) :
    ToolCallResult :=
  match client.search movieName "movie" with
  | .error e => ErrorContent e
  | .ok results =>
    match results with
    | [] => ⟨[TextContent ("No movie found for: " ++ movieName)], true⟩
    | r0 :: rest =>
      match r0.Movie with
      | none => ⟨[TextContent ("No movie found for: " ++ movieName)], true⟩
      | some mv =>
        if (r0 :: rest).length > 1 && r0.score < 1000 then
          ⟨[TextContent (multipleMoviesMsg movieName (r0 :: rest))], true⟩
        else
          logMovieCommit client mv watchedAt

def logMovie (client : Client) (movieName : String) (watchedAt : String) :
    ToolCallResult :=
  if movieName == "" then
    ⟨[TextContent "Error: movieName is required for movies"], true⟩
  else
    logMovieResolve client movieName watchedAt

def makeLogWatchHandler (client : Client) : ToolHandler := fun args =>
  if !client.isAuthenticated then
    (⟨[TextContent "Error: Not authenticated. Use the authenticate tool first."], true⟩, none)
  else
    match unmarshalLogWatchArgs args with
    | .error e => (ErrorContent ("invalid arguments: " ++ e), none)
    | .ok a =>
      if a.type == "episode" then
        (logEpisode client a.showName a.season a.episode a.watchedAt, none)
      else if a.type == "movie" then
        (logMovie client a.movieName a.watchedAt, none)
      else
        (⟨[TextContent "Error: type must be 'episode' or 'movie'"], true⟩, none)

/-! ## internal/mcp/server.go -/

def ProtocolVersion : String := "2024-11-05"
def ServerName : String := "trakt-mcp-go"
def ServerVersion : String := "0.1.0"

/-- Go `Server`: the two registry maps (association lists here) and the
session `initialized` flag. The logger and the mutex guarding the maps have no
observable effect on the translated logic. -/
structure ServerState where
  tools : List (String × Tool)
  handlers : List (String × ToolHandler)
  initialized : Bool

/-- `NewServer` -/
def newServer : ServerState :=
  ⟨[], [], false⟩

/-- Go map assignment `m[k] = v`: the entry for `k` is replaced. The position
of the entry is irrelevant because Go map iteration order is unspecified. -/
def mapSet {α : Type} (m : List (String × α)) (k : String) (v : α) :
    List (String × α) :=
  (k, v) :: m.filter (fun p => p.1 != k)

/-- Go map lookup `m[k]`. -/
def mapGet {α : Type} (m : List (String × α)) (k : String) : Option α :=
  (m.find? (fun p => p.1 == k)).map (fun p => p.2)

/-- `(s *Server) RegisterTool` -/
def ServerState.registerTool (s : ServerState) (tool : Tool) (handler : ToolHandler) :
    ServerState :=
  ⟨mapSet s.tools tool.name tool, mapSet s.handlers tool.name handler, s.initialized⟩

/-- `(s *Server) handleInitialize`: on malformed params an invalid-params
error and no state change; otherwise the flag is set and the server identity
returned. -/
def handleInitialize (s : ServerState) (params : RawParams) :
    ServerState × Except Error InitializeResult :=
  match unmarshalInitializeParams params with
  | .error _ => (s, .error ⟨InvalidParams, "Invalid initialize params"⟩)
  | .ok _p =>
    (⟨s.tools, s.handlers, true⟩,
     .ok ⟨ProtocolVersion, ⟨some ⟨false⟩⟩, ⟨ServerName, ServerVersion⟩⟩)

/-- `(s *Server) handleToolsList` with an explicit iteration order of the
tools map (Go map iteration order is unspecified; `iter` is any enumeration
of the entries). The Go function's `*Error` return is always nil. -/
def handleToolsListWith (iter : List (String × Tool)) : ToolsListResult :=
  ⟨iter.map (fun p => p.2)⟩

/-- `handleToolsList` at one admissible iteration order (the entry list
itself), used by `dispatch`. -/
def handleToolsList (s : ServerState) : ToolsListResult :=
  handleToolsListWith s.tools

/-- `(s *Server) handleToolsCall`. -/
def handleToolsCall (s : ServerState) (params : RawParams) :
    Except Error ToolCallResult :=
  match unmarshalToolCallParams params with
  | .error _ => .error ⟨InvalidParams, "Invalid tools/call params"⟩
  | .ok p =>
    match mapGet s.handlers p.name with
    | none => .error ⟨InvalidParams, "Unknown tool: " ++ p.name⟩
    | some handler =>
      match handler p.arguments with
      | (_result, some e) => .ok ⟨[TextContent e], true⟩
      | (result, none) => .ok result

/-- The `any` result of a successful `dispatch`: `nil` (for the
`initialized` notification) or one of the three result payloads. -/
inductive ResultVal where
  | initResult (r : InitializeResult)
  | toolsList (r : ToolsListResult)
  | toolCall (r : ToolCallResult)

/-- `(s *Server) dispatch`: the method switch. Only `initialize` changes the
state. -/
def dispatch (s : ServerState) (method : String) (params : RawParams) :
    ServerState × Except Error (Option ResultVal) :=
  if method == "initialize" then
    match handleInitialize s params with
    | (s', .error e) => (s', .error e)
    | (s', .ok r) => (s', .ok (some (.initResult r)))
  else if method == "initialized" then
    -- Notification, no response needed (comment in the source)
    (s, .ok none)
  else if method == "tools/list" then
    (s, .ok (some (.toolsList (handleToolsList s))))
  else if method == "tools/call" then
    match handleToolsCall s params with
    | .error e => (s, .error e)
    | .ok r => (s, .ok (some (.toolCall r)))
  else
    (s, .error ⟨MethodNotFound, "Method not found: " ++ method⟩)

/-- Go `Request`: the correlation id is an opaque raw JSON fragment
(`none` = absent; `some "null"` = a literal null id). -/
structure Request where
  jsonrpc : String
  id : Option String
  method : String
  params : RawParams

/-- Go `Response`. Exactly the absent/`nil` fields of the Go struct are
`none` here. -/
structure Response where
  jsonrpc : String
  id : Option String
  result : Option ResultVal
  error : Option Error

/-- The parse outcome of one input line: `json.Unmarshal` into `Request`
either fails or produces a request envelope. -/
inductive MsgParse where
  | fail : MsgParse
  | req (r : Request) : MsgParse

/-- `(s *Server) handleMessage`. Every branch returns a (non-nil) response;
in particular a successful dispatch of a notification yields a response whose
result and error are both absent. -/
def handleMessage (s : ServerState) (m : MsgParse) : ServerState × Response :=
  match m with
  | .fail => (s, ⟨"2.0", none, none, some ⟨ParseError, "Parse error"⟩⟩)
  | .req r =>
    if r.jsonrpc != "2.0" then
      (s, ⟨"2.0", r.id, none, some ⟨InvalidRequest, "Invalid JSON-RPC version"⟩⟩)
    else
      match dispatch s r.method r.params with
      | (s', .error e) => (s', ⟨"2.0", r.id, none, some e⟩)
      | (s', .ok result) => (s', ⟨"2.0", r.id, result, none⟩)

/-- One input line as `RunWithIO` sees it: empty, or a line handed to
`handleMessage` (with its parse outcome). -/
inductive InputLine where
  | blank : InputLine
  | line (m : MsgParse) : InputLine

/-- One iteration of the `RunWithIO` read loop: blank lines are skipped;
otherwise `handleMessage` runs and — since it never returns a nil pointer —
its response is always written to the output stream. -/
def stepLine (s : ServerState) (l : InputLine) : ServerState × List Response :=
  match l with
  | .blank => (s, [])
  | .line m =>
    match handleMessage s m with
    | (s', resp) => (s', [resp])

/-- `RegisterTools` (handlers.go): the four tools with their declared input
schemas, registered in source order. -/
def authenticateTool : Tool :=
  ⟨"authenticate",
   "Authenticate with Trakt.tv using OAuth device flow. Returns a verification URL and code for the user to authorize.",
   .mk "object" [] [] "" [] false⟩

def searchShowTool : Tool :=
  ⟨"search_show",
   "Search for TV shows, movies, or anime by title. Returns matching content with IDs and metadata.",
   .mk "object"
     [("query", .mk "string" [] [] "Search query (title or keywords)" [] false),
      ("type", .mk "string" [] [] "Content type filter (optional)" ["show", "movie"] false)]
     ["query"] "" [] false⟩

def getHistoryTool : Tool :=
  ⟨"get_history",
   "Retrieve watch history with optional filters. Supports content type filtering.",
   .mk "object"
     [("type", .mk "string" [] [] "Filter by content type (optional)" ["shows", "movies"] false),
      ("limit", .mk "number" [] [] "Maximum number of items to return" [] false)]
     [] "" [] false⟩

def logWatchTool : Tool :=
  ⟨"log_watch",
   "Log a single episode or movie as watched. Accepts ISO 8601 dates. If no date provided, uses current time.",
   .mk "object"
     [("type", .mk "string" [] [] "Content type" ["episode", "movie"] false),
      ("showName", .mk "string" [] [] "Show name (required for episodes)" [] false),
      ("season", .mk "number" [] [] "Season number (required for episodes)" [] false),
      ("episode", .mk "number" [] [] "Episode number (required for episodes)" [] false),
      ("movieName", .mk "string" [] [] "Movie name (required for movies)" [] false),
      ("watchedAt", .mk "string" [] [] "When it was watched. ISO 8601 format" [] false)]
     ["type"] "" [] false⟩

def RegisterTools (s : ServerState) (client : Client) : ServerState :=
  (((s.registerTool authenticateTool (makeAuthenticateHandler client)).registerTool
      searchShowTool (makeSearchHandler client)).registerTool
      getHistoryTool (makeGetHistoryHandler client)).registerTool
      logWatchTool (makeLogWatchHandler client)

/-! ## Theorems -/

/-- C7: an `APIError` is an authentication error exactly when its status code
is 401 or 403, is rate-limited exactly when it is 429, and carries nothing
beyond status code, method and path — in particular the status branch of `do`
builds the error independently of the response body. -/
theorem c7_apiError_predicates :
    ∀ e : APIError,
      (e.isAuthError = true ↔ (e.statusCode = 401 ∨ e.statusCode = 403)) ∧
      (e.isRateLimited = true ↔ e.statusCode = 429) ∧
      e = ⟨e.statusCode, e.method, e.path⟩ ∧
      (∀ method path status body₁ body₂,
        doStatusCheck method path status body₁ = doStatusCheck method path status body₂) := by
  intro e
  refine ⟨?_, ?_, rfl, fun _ _ _ _ _ => rfl⟩
  · simp [APIError.isAuthError]
  · simp [APIError.isRateLimited]

/-- C6: for every line that parses as a request envelope, the response
produced by `handleMessage` echoes the request's correlation id — whatever
that id is, including a literal null id and an absent id. -/
theorem c6_response_echoes_request_id :
    ∀ (s : ServerState) (r : Request),
      (handleMessage s (MsgParse.req r)).2.id = r.id := by
  intro s r
  unfold handleMessage
  by_cases h : r.jsonrpc = "2.0"
  · simp only [h]
    cases hd : dispatch s r.method r.params with
    | mk s' res =>
      cases res <;> simp [hd]
  · have : (r.jsonrpc != "2.0") = true := by
      simp [bne_iff_ne, h]
    simp [this]

/-- C5: the session `initialized` flag is never consulted by `tools/call`:
the outcome of `handleToolsCall` is unchanged by a preceding `initialize`
(successful or not), and is the same for any two values of the flag. -/
theorem c5_initialized_flag_not_consulted :
    ∀ (s : ServerState) (initParams callParams : RawParams),
      handleToolsCall (handleInitialize s initParams).1 callParams
          = handleToolsCall s callParams ∧
      (∀ b₁ b₂ : Bool,
        handleToolsCall ⟨s.tools, s.handlers, b₁⟩ callParams
          = handleToolsCall ⟨s.tools, s.handlers, b₂⟩ callParams) := by
  intro s initParams callParams
  constructor
  · unfold handleInitialize
    cases unmarshalInitializeParams initParams <;> rfl
  · intro b₁ b₂
    rfl

/-- C1 (divergence witness): an input line carrying an `initialized`
notification — protocol tag "2.0", any id, any params — makes the read loop
emit exactly one response line, carrying neither result nor error, because
`handleMessage` never returns a nil response pointer. The spec (and the
source's own comment "Notification, no response needed") call for no output
line at all. -/
theorem c1_initialized_notification_emits_a_line :
    ∀ (s : ServerState) (id : Option String) (params : RawParams),
      stepLine s (InputLine.line (MsgParse.req ⟨"2.0", id, "initialized", params⟩))
        = (s, [⟨"2.0", id, none, none⟩]) := by
  intro s id params
  rfl

/-- C3: the episode-path validation of `logEpisode`: a negative season is
rejected, a zero or negative episode is rejected, and season 0 with episode 1
passes the check (the call proceeds to show resolution). -/
theorem c3_logEpisode_validation :
    ∀ (client : Client) (showName watchedAt : String),
      showName ≠ "" →
      (∀ episode : Int,
        logEpisode client showName (-1) episode watchedAt
          = ⟨[TextContent "Error: season must be >= 0 and episode must be positive"], true⟩) ∧
      (∀ season : Int,
        logEpisode client showName season 0 watchedAt
          = ⟨[TextContent "Error: season must be >= 0 and episode must be positive"], true⟩) ∧
      (∀ season : Int,
        logEpisode client showName season (-1) watchedAt
          = ⟨[TextContent "Error: season must be >= 0 and episode must be positive"], true⟩) ∧
      logEpisode client showName 0 1 watchedAt
        = logEpisodeResolve client showName 0 1 watchedAt := by
  intro client showName watchedAt hname
  have hq : (showName == "") = false := by
    simp [hname]
  refine ⟨fun episode => ?_, fun season => ?_, fun season => ?_, ?_⟩ <;>
    simp [logEpisode, hq]

/-- A client whose oracles return fixed benign values, used to instantiate
universally quantified theorems at a concrete input. -/
def clientStub : Client :=
  ⟨⟨"id", "secret", "token", ""⟩,
   fun _ _ => .ok [],
   fun _ _ => .ok [],
   fun _ => .ok ⟨⟨0, 0⟩, ⟨0, 0⟩, ⟨0, 0⟩, ⟨[], [], []⟩⟩,
   .ok ⟨"dev", "ABCD", "https://trakt.tv/activate", 600, 5⟩,
   fun _ _ _ => .error "trakt API error: GET /shows returned status 404"⟩

/-- Witness for C3 at a concrete input. -/
theorem c3_logEpisode_validation_witness :
    ("Breaking Bad" : String) ≠ "" ∧
    logEpisode clientStub "Breaking Bad" (-1) 1 ""
      = ⟨[TextContent "Error: season must be >= 0 and episode must be positive"], true⟩ :=
  ⟨by decide, (c3_logEpisode_validation clientStub "Breaking Bad" "" (by decide)).1 1⟩

def toolNames (r : ToolsListResult) : List String :=
  r.tools.map (fun t => t.name)

/-- C8: two `tools/list` calls against the same registry — each free to
enumerate the tools map in its own order, since Go map iteration order is
unspecified — yield the same set of tool names. -/
theorem c8_toolsList_same_name_set :
    ∀ (s : ServerState) (iter₁ iter₂ : List (String × Tool)),
      iter₁.Perm s.tools → iter₂.Perm s.tools →
      ∀ name : String,
        name ∈ toolNames (handleToolsListWith iter₁)
          ↔ name ∈ toolNames (handleToolsListWith iter₂) := by
  intro s iter₁ iter₂ h₁ h₂ name
  have hp : iter₁.Perm iter₂ := h₁.trans h₂.symm
  have hnames : (toolNames (handleToolsListWith iter₁)).Perm
      (toolNames (handleToolsListWith iter₂)) := by
    simp only [toolNames, handleToolsListWith]
    exact (hp.map (fun p => p.2)).map (fun t => t.name)
  exact hnames.mem_iff

/-- A handler that does nothing, for registry-only statements. -/
def handlerNop : ToolHandler := fun _ => (⟨[], false⟩, none)

def serverTwoTools : ServerState :=
  (newServer.registerTool authenticateTool handlerNop).registerTool
    searchShowTool handlerNop

/-- Witness for C8 at a concrete two-tool registry, with the two calls
iterating the map in opposite orders. -/
theorem c8_toolsList_same_name_set_witness :
    serverTwoTools.tools.reverse.Perm serverTwoTools.tools ∧
    serverTwoTools.tools.Perm serverTwoTools.tools ∧
    ("authenticate" ∈ toolNames (handleToolsListWith serverTwoTools.tools.reverse)
      ↔ "authenticate" ∈ toolNames (handleToolsListWith serverTwoTools.tools)) :=
  ⟨List.reverse_perm _, List.Perm.refl _,
   c8_toolsList_same_name_set serverTwoTools _ _
     (List.reverse_perm _) (List.Perm.refl _) "authenticate"⟩

/-- C9: when the sync response reports both a positive added count and a
positive existing count, the added count wins: both paths render the
non-error "Logged" success message, not "Already watched". -/
theorem c9_added_count_checked_first :
    ∀ (client : Client) (sh : Show) (mv : Movie) (season episode : Int)
      (watchedAt : String) (ep : Episode) (respE respM : SyncResponse),
      (client.getEpisode (toString sh.ids.trakt) season episode = .ok ep →
        client.addToHistory (episodeSyncItem watchedAt ep) = .ok respE →
        0 < respE.added.episodes → 0 < respE.existing.episodes →
        logEpisodeCommit client sh season episode watchedAt
          = ⟨[TextContent ("✅ Logged: **" ++ sh.title ++ "** S" ++ pad2 season
              ++ "E" ++ pad2 episode ++ " - " ++ ep.title)], false⟩) ∧
      (client.addToHistory (movieSyncItem watchedAt mv) = .ok respM →
        0 < respM.added.movies → 0 < respM.existing.movies →
        logMovieCommit client mv watchedAt
          = ⟨[TextContent ("✅ Logged: **" ++ mv.title ++ "** ("
              ++ toString mv.year ++ ")")], false⟩) := by
  intro client sh mv season episode watchedAt ep respE respM
  constructor
  · intro hep hadd haddCount _hexisting
    simp [logEpisodeCommit, hep, hadd, haddCount]
  · intro hadd haddCount _hexisting
    simp [logMovieCommit, hadd, haddCount]

/-- A client for the C9 witness: the episode lookup succeeds and the sync
response reports one added and one existing episode and movie. -/
def clientBothCounts : Client :=
  ⟨⟨"id", "secret", "token", ""⟩,
   fun _ _ => .ok [],
   fun _ _ => .ok [],
   fun _ => .ok ⟨⟨1, 1⟩, ⟨0, 0⟩, ⟨1, 1⟩, ⟨[], [], []⟩⟩,
   .ok ⟨"dev", "ABCD", "https://trakt.tv/activate", 600, 5⟩,
   fun _ _ _ => .ok ⟨1, 1, "Pilot", ⟨101, 0, "", 0⟩⟩⟩

/-- Witness for C9 at a concrete input. -/
theorem c9_added_count_checked_first_witness :
    clientBothCounts.getEpisode "1388" 1 1 = .ok ⟨1, 1, "Pilot", ⟨101, 0, "", 0⟩⟩ ∧
    clientBothCounts.addToHistory (episodeSyncItem "" ⟨1, 1, "Pilot", ⟨101, 0, "", 0⟩⟩)
      = .ok ⟨⟨1, 1⟩, ⟨0, 0⟩, ⟨1, 1⟩, ⟨[], [], []⟩⟩ ∧
    (0 : Int) < 1 ∧
    logEpisodeCommit clientBothCounts ⟨"Breaking Bad", 2008, ⟨1388, "breaking-bad", 0, "", 0⟩⟩ 1 1 ""
      = ⟨[TextContent "✅ Logged: **Breaking Bad** S01E01 - Pilot"], false⟩ :=
  ⟨rfl, rfl, by decide,
   (c9_added_count_checked_first clientBothCounts
       ⟨"Breaking Bad", 2008, ⟨1388, "breaking-bad", 0, "", 0⟩⟩
       ⟨"Heat", 1995, ⟨6, "heat-1995", "", 0⟩⟩ 1 1 ""
       ⟨1, 1, "Pilot", ⟨101, 0, "", 0⟩⟩
       ⟨⟨1, 1⟩, ⟨0, 0⟩, ⟨1, 1⟩, ⟨[], [], []⟩⟩
       ⟨⟨1, 1⟩, ⟨0, 0⟩, ⟨1, 1⟩, ⟨[], [], []⟩⟩).1
     rfl rfl (by decide) (by decide)⟩

/-- C10: a search result list whose first element lacks its payload is
treated as "not found" on both paths, even when later results do carry
payloads (the `rest` lists are arbitrary). -/
theorem c10_nil_first_payload_not_found :
    ∀ (client : Client) (showName movieName watchedAt : String)
      (season episode : Int) (r0 r0' : SearchResult)
      (rest rest' : List SearchResult),
      (showName ≠ "" → 0 ≤ season → 0 < episode →
        client.search showName "show" = .ok (r0 :: rest) →
        r0.Show = none →
        logEpisode client showName season episode watchedAt
          = ⟨[TextContent ("No show found for: " ++ showName)], true⟩) ∧
      (movieName ≠ "" →
        client.search movieName "movie" = .ok (r0' :: rest') →
        r0'.Movie = none →
        logMovie client movieName watchedAt
          = ⟨[TextContent ("No movie found for: " ++ movieName)], true⟩) := by
  intro client showName movieName watchedAt season episode r0 r0' rest rest'
  constructor
  · intro hname hseason hepisode hsearch hshow
    have hq : (showName == "") = false := by
      simp [hname]
    simp [logEpisode, hq, logEpisodeResolve, hsearch, hshow]
    intro hc
    exact absurd hc (by omega)
  · intro hname hsearch hmovie
    have hq : (movieName == "") = false := by
      simp [hname]
    simp [logMovie, hq, logMovieResolve, hsearch, hmovie]

/-- A client for the C10 witness: the first search result has no payload
although the second one does. -/
def clientNilFirst : Client :=
  ⟨⟨"id", "secret", "token", ""⟩,
   fun _ _ => .ok
     [⟨"show", 2000, none, none⟩,
      ⟨"show", 100, some ⟨"Dexter", 2006, ⟨11, "dexter", 0, "", 0⟩⟩,
        some ⟨"Dexter", 2006, ⟨11, "dexter", "", 0⟩⟩⟩],
   fun _ _ => .ok [],
   fun _ => .ok ⟨⟨0, 0⟩, ⟨0, 0⟩, ⟨0, 0⟩, ⟨[], [], []⟩⟩,
   .ok ⟨"dev", "ABCD", "https://trakt.tv/activate", 600, 5⟩,
   fun _ _ _ => .ok ⟨1, 1, "Pilot", ⟨101, 0, "", 0⟩⟩⟩

/-- Witness for C10 at a concrete input whose second result does carry a
show payload. -/
theorem c10_nil_first_payload_not_found_witness :
    ("Dexter" : String) ≠ "" ∧ (0 : Int) ≤ 1 ∧ (0 : Int) < 1 ∧
    clientNilFirst.search "Dexter" "show"
      = .ok [⟨"show", 2000, none, none⟩,
             ⟨"show", 100, some ⟨"Dexter", 2006, ⟨11, "dexter", 0, "", 0⟩⟩,
               some ⟨"Dexter", 2006, ⟨11, "dexter", "", 0⟩⟩⟩] ∧
    (⟨"show", 2000, none, none⟩ : SearchResult).Show = none ∧
    logEpisode clientNilFirst "Dexter" 1 1 ""
      = ⟨[TextContent "No show found for: Dexter"], true⟩ :=
  ⟨by decide, by decide, by decide, rfl, rfl,
   (c10_nil_first_payload_not_found clientNilFirst "Dexter" "Heat" "" 1 1
       ⟨"show", 2000, none, none⟩ ⟨"movie", 0, none, none⟩
       [⟨"show", 100, some ⟨"Dexter", 2006, ⟨11, "dexter", 0, "", 0⟩⟩,
          some ⟨"Dexter", 2006, ⟨11, "dexter", "", 0⟩⟩⟩] []).1
     (by decide) (by decide) (by decide) rfl rfl⟩

/-- A params value carrying a `tools/call` for the named tool with the given
raw arguments (the envelope itself well-formed). -/
def tcParams (name : String) (args : RawArgs) : RawParams :=
  .wellFormed ⟨.error "json: cannot unmarshal", .ok ⟨name, args⟩⟩

/-- A configured, unauthenticated client whose device-code request
succeeds. -/
def clientConfigured : Client :=
  ⟨⟨"id", "secret", "", ""⟩,
   fun _ _ => .ok [],
   fun _ _ => .ok [],
   fun _ => .ok ⟨⟨0, 0⟩, ⟨0, 0⟩, ⟨0, 0⟩, ⟨[], [], []⟩⟩,
   .ok ⟨"dev", "ABCD", "https://trakt.tv/activate", 600, 5⟩,
   fun _ _ _ => .error "trakt API error: GET /shows returned status 404"⟩

/-- C2 (counterexample): `authenticate` is a registered tool, yet invoking it
through `tools/call` with syntactically invalid JSON arguments does not yield
a tool-logic error — the handler never parses its arguments, so with
credentials configured and a successful device-code request the call returns
a successful, non-error result. -/
theorem c2_counterexample_authenticate_ignores_args :
    handleToolsCall (RegisterTools newServer clientConfigured)
        (tcParams "authenticate" (RawArgs.malformed "unexpected end of JSON input"))
      = .ok ⟨[TextContent (authMessage ⟨"dev", "ABCD", "https://trakt.tv/activate", 600, 5⟩)],
             false⟩ := by
  rfl

/-- Key fact used below: a `tools/call` for a name registered in the
handlers map runs exactly that handler on the raw arguments. -/
theorem handleToolsCall_registered (s : ServerState) (name : String)
    (h : ToolHandler) (args : RawArgs)
    (hfind : mapGet s.handlers name = some h) :
    handleToolsCall s (tcParams name args)
      = (match h args with
         | (_result, some e) => .ok ⟨[TextContent e], true⟩
         | (result, none) => .ok result) := by
  simp [handleToolsCall, tcParams, unmarshalToolCallParams, hfind]

/-- C2 (amended): invoking any of the four registered tools through
`tools/call` with syntactically invalid JSON arguments never yields a
JSON-RPC protocol error, and for the three tools whose handlers parse their
arguments — `search_show`, `get_history`, `log_watch` — it always yields a
tool-logic error (error flag set). `authenticate` ignores its arguments. -/
theorem c2_amended_invalid_args_tool_logic_error :
    ∀ (client : Client) (msg : String),
      (∃ r, handleToolsCall (RegisterTools newServer client)
          (tcParams "authenticate" (RawArgs.malformed msg)) = .ok r) ∧
      (∃ r, handleToolsCall (RegisterTools newServer client)
          (tcParams "search_show" (RawArgs.malformed msg)) = .ok r
        ∧ r.isError = true) ∧
      (∃ r, handleToolsCall (RegisterTools newServer client)
          (tcParams "get_history" (RawArgs.malformed msg)) = .ok r
        ∧ r.isError = true) ∧
      (∃ r, handleToolsCall (RegisterTools newServer client)
          (tcParams "log_watch" (RawArgs.malformed msg)) = .ok r
        ∧ r.isError = true) := by
  intro client msg
  have hA : mapGet (RegisterTools newServer client).handlers "authenticate"
      = some (makeAuthenticateHandler client) := rfl
  have hS : mapGet (RegisterTools newServer client).handlers "search_show"
      = some (makeSearchHandler client) := rfl
  have hH : mapGet (RegisterTools newServer client).handlers "get_history"
      = some (makeGetHistoryHandler client) := rfl
  have hW : mapGet (RegisterTools newServer client).handlers "log_watch"
      = some (makeLogWatchHandler client) := rfl
  refine ⟨?_, ?_, ?_, ?_⟩
  · rw [handleToolsCall_registered _ _ _ _ hA]
    by_cases hconf : client.isConfigured
    · cases hdc : client.getDeviceCode with
      | error e =>
        exact ⟨ErrorContent e, by simp [makeAuthenticateHandler, hconf, hdc]⟩
      | ok code =>
        exact ⟨⟨[TextContent (authMessage code)], false⟩,
          by simp [makeAuthenticateHandler, hconf, hdc]⟩
    · exact ⟨⟨[TextContent "Error: TRAKT_CLIENT_ID and TRAKT_CLIENT_SECRET environment variables must be set"], true⟩,
        by simp [makeAuthenticateHandler, hconf]⟩
  · rw [handleToolsCall_registered _ _ _ _ hS]
    exact ⟨ErrorContent ("invalid arguments: " ++ msg), rfl, rfl⟩
  · rw [handleToolsCall_registered _ _ _ _ hH]
    by_cases hauth : client.isAuthenticated
    · exact ⟨ErrorContent ("invalid arguments: " ++ msg),
        by simp [makeGetHistoryHandler, hauth, unmarshalHistoryArgs, ErrorContent], rfl⟩
    · exact ⟨⟨[TextContent "Error: Not authenticated. Use the authenticate tool first."], true⟩,
        by simp [makeGetHistoryHandler, hauth], rfl⟩
  · rw [handleToolsCall_registered _ _ _ _ hW]
    by_cases hauth : client.isAuthenticated
    · exact ⟨ErrorContent ("invalid arguments: " ++ msg),
        by simp [makeLogWatchHandler, hauth, unmarshalLogWatchArgs, ErrorContent], rfl⟩
    · exact ⟨⟨[TextContent "Error: Not authenticated. Use the authenticate tool first."], true⟩,
        by simp [makeLogWatchHandler, hauth], rfl⟩

/-- Concatenation of a list of strings, for closed forms of the rendering
loops. -/
def strConcat : List String → String
  | [] => ""
  | s :: rest => s ++ strConcat rest

/-- Closed form of the ambiguous-show rendering loop: starting at index
`i ≤ 5` it renders the bullets of the next `5 - i` results and appends the
truncation note exactly when results remain beyond them. -/
theorem multipleShowsLoop_closed :
    ∀ (l : List SearchResult) (i total : Nat), i ≤ 5 → i + l.length = total →
      multipleShowsLoop total i l
        = strConcat ((l.take (5 - i)).map showBullet)
          ++ (if 5 - i < l.length then
                "... and " ++ toString (total - 5) ++ " more\n"
              else "") := by
  intro l
  induction l with
  | nil =>
    intro i total hi htot
    simp [multipleShowsLoop, strConcat]
  | cons r rs ih =>
    intro i total hi htot
    simp only [List.length_cons] at htot
    simp only [multipleShowsLoop]
    by_cases h5 : i ≥ 5
    · rw [if_pos h5]
      have hi5 : i = 5 := Nat.le_antisymm hi h5
      subst hi5
      simp [strConcat, String.empty_append]
    · rw [if_neg h5]
      have h1 : i + 1 ≤ 5 := by omega
      have h2 : i + 1 + rs.length = total := by omega
      rw [ih (i + 1) total h1 h2]
      have h3 : 5 - i = (5 - (i + 1)) + 1 := by omega
      rw [h3, List.take_succ_cons]
      simp only [List.map_cons, strConcat, List.length_cons,
        Nat.add_lt_add_iff_right, String.append_assoc]

/-- Closed form of the ambiguous-movie rendering loop. -/
theorem multipleMoviesLoop_closed :
    ∀ (l : List SearchResult) (i total : Nat), i ≤ 5 → i + l.length = total →
      multipleMoviesLoop total i l
        = strConcat ((l.take (5 - i)).map movieBullet)
          ++ (if 5 - i < l.length then
                "... and " ++ toString (total - 5) ++ " more\n"
              else "") := by
  intro l
  induction l with
  | nil =>
    intro i total hi htot
    simp [multipleMoviesLoop, strConcat]
  | cons r rs ih =>
    intro i total hi htot
    simp only [List.length_cons] at htot
    simp only [multipleMoviesLoop]
    by_cases h5 : i ≥ 5
    · rw [if_pos h5]
      have hi5 : i = 5 := Nat.le_antisymm hi h5
      subst hi5
      simp [strConcat, String.empty_append]
    · rw [if_neg h5]
      have h1 : i + 1 ≤ 5 := by omega
      have h2 : i + 1 + rs.length = total := by omega
      rw [ih (i + 1) total h1 h2]
      have h3 : 5 - i = (5 - (i + 1)) + 1 := by omega
      rw [h3, List.take_succ_cons]
      simp only [List.map_cons, strConcat, List.length_cons,
        Nat.add_lt_add_iff_right, String.append_assoc]

/-- A client for the C4 counterexample: two results, top score below 1000,
but the first result has no show payload. -/
def clientFirstPayloadMissing : Client :=
  ⟨⟨"id", "secret", "token", ""⟩,
   fun _ _ => .ok
     [⟨"show", 0, none, none⟩,
      ⟨"show", 0, some ⟨"Dexter", 2006, ⟨11, "dexter", 0, "", 0⟩⟩, none⟩],
   fun _ _ => .ok [],
   fun _ => .ok ⟨⟨0, 0⟩, ⟨0, 0⟩, ⟨0, 0⟩, ⟨[], [], []⟩⟩,
   .ok ⟨"dev", "ABCD", "https://trakt.tv/activate", 600, 5⟩,
   fun _ _ _ => .ok ⟨1, 1, "Pilot", ⟨101, 0, "", 0⟩⟩⟩

/-- C4 (counterexample): a search result list with more than one element and
top score below 1000 for which `log_watch` does not return the "Multiple
shows found" error: the first result carries no show payload, so the code
answers "No show found" instead. -/
theorem c4_counterexample_first_payload_missing :
    logEpisode clientFirstPayloadMissing "Dexter" 1 1 ""
        = ⟨[TextContent "No show found for: Dexter"], true⟩ ∧
    ¬ List.IsInfix "Multiple shows found".toList "No show found for: Dexter".toList := by
  constructor
  · rfl
  · decide

/-- C4 (amended): on both paths, when the search returns more than one result,
the top result's payload is present, and the top score is below 1000, the
outcome is the disambiguation error: the "Multiple shows/movies found" header,
the bullets of at most the first 5 results, and the truncation note exactly
when more than 5 results exist. Otherwise (a single result, or a top score of
at least 1000) the top result alone determines the rest of the call. -/
theorem c4_disambiguation :
    ∀ (client : Client) (showName movieName watchedAt : String)
      (season episode : Int) (r0 r0' : SearchResult)
      (rest rest' : List SearchResult) (sh : Show) (mv : Movie),
      (client.search showName "show" = .ok (r0 :: rest) →
        r0.Show = some sh →
        ((rest ≠ [] → r0.score < 1000 →
          logEpisodeResolve client showName season episode watchedAt
            = ⟨[TextContent ("Multiple shows found for '" ++ showName
                ++ "'. Please be more specific or use the year:\n"
                ++ (strConcat (((r0 :: rest).take 5).map showBullet)
                  ++ (if 5 < (r0 :: rest).length then
                        "... and " ++ toString ((r0 :: rest).length - 5) ++ " more\n"
                      else "")))], true⟩) ∧
         (¬ (rest ≠ [] ∧ r0.score < 1000) →
          logEpisodeResolve client showName season episode watchedAt
            = logEpisodeCommit client sh season episode watchedAt))) ∧
      (client.search movieName "movie" = .ok (r0' :: rest') →
        r0'.Movie = some mv →
        ((rest' ≠ [] → r0'.score < 1000 →
          logMovieResolve client movieName watchedAt
            = ⟨[TextContent ("Multiple movies found for '" ++ movieName
                ++ "'. Please be more specific or use the year:\n"
                ++ (strConcat (((r0' :: rest').take 5).map movieBullet)
                  ++ (if 5 < (r0' :: rest').length then
                        "... and " ++ toString ((r0' :: rest').length - 5) ++ " more\n"
                      else "")))], true⟩) ∧
         (¬ (rest' ≠ [] ∧ r0'.score < 1000) →
          logMovieResolve client movieName watchedAt
            = logMovieCommit client mv watchedAt))) := by
  intro client showName movieName watchedAt season episode r0 r0' rest rest' sh mv
  constructor
  · intro hsearch hshow
    constructor
    · intro hrest hscore
      cases rest with
      | nil => exact absurd rfl hrest
      | cons r1 rs =>
        have hlen : 1 < (r0 :: r1 :: rs).length := by
          simp
        have hloop := multipleShowsLoop_closed (r0 :: r1 :: rs) 0
          (r0 :: r1 :: rs).length (by omega) (by omega)
        simp only [Nat.sub_zero, List.length_cons] at hloop
        simp [logEpisodeResolve, hsearch, hshow, hlen, hscore,
          multipleShowsMsg, hloop, String.append_assoc]
    · intro hneg
      rcases Decidable.not_and_iff_or_not.mp hneg with hrest | hscore
      · have hrest' : rest = [] := Decidable.not_not.mp hrest
        subst hrest'
        simp [logEpisodeResolve, hsearch, hshow]
      · simp [logEpisodeResolve, hsearch, hshow, hscore]
  · intro hsearch hmovie
    constructor
    · intro hrest hscore
      cases rest' with
      | nil => exact absurd rfl hrest
      | cons r1 rs =>
        have hlen : 1 < (r0' :: r1 :: rs).length := by
          simp
        have hloop := multipleMoviesLoop_closed (r0' :: r1 :: rs) 0
          (r0' :: r1 :: rs).length (by omega) (by omega)
        simp only [Nat.sub_zero, List.length_cons] at hloop
        simp [logMovieResolve, hsearch, hmovie, hlen, hscore,
          multipleMoviesMsg, hloop, String.append_assoc]
    · intro hneg
      rcases Decidable.not_and_iff_or_not.mp hneg with hrest | hscore
      · have hrest' : rest' = [] := Decidable.not_not.mp hrest
        subst hrest'
        simp [logMovieResolve, hsearch, hmovie]
      · simp [logMovieResolve, hsearch, hmovie, hscore]

def dexterShow : Show :=
  ⟨"Dexter", 2006, ⟨11, "dexter", 0, "", 0⟩⟩

def dexterNewBlood : Show :=
  ⟨"Dexter: New Blood", 2021, ⟨22, "dexter-new-blood", 0, "", 0⟩⟩

/-- A client for the C4 witness: two show results whose top score is below
the confidence threshold. -/
def clientAmbiguous : Client :=
  ⟨⟨"id", "secret", "token", ""⟩,
   fun _ _ => .ok
     [⟨"show", 500, some dexterShow, none⟩,
      ⟨"show", 450, some dexterNewBlood, none⟩],
   fun _ _ => .ok [],
   fun _ => .ok ⟨⟨0, 0⟩, ⟨0, 0⟩, ⟨0, 0⟩, ⟨[], [], []⟩⟩,
   .ok ⟨"dev", "ABCD", "https://trakt.tv/activate", 600, 5⟩,
   fun _ _ _ => .ok ⟨1, 1, "Pilot", ⟨101, 0, "", 0⟩⟩⟩

/-- Witness for the amended C4 at a concrete ambiguous input: both
candidates are listed and no truncation note appears. -/
theorem c4_disambiguation_witness :
    clientAmbiguous.search "Dexter" "show"
      = .ok [⟨"show", 500, some dexterShow, none⟩,
             ⟨"show", 450, some dexterNewBlood, none⟩] ∧
    (⟨"show", 500, some dexterShow, none⟩ : SearchResult).Show = some dexterShow ∧
    ([⟨"show", 450, some dexterNewBlood, none⟩] : List SearchResult) ≠ [] ∧
    ((500 : Rat) < 1000) ∧
    logEpisodeResolve clientAmbiguous "Dexter" 1 1 ""
      = ⟨[TextContent ("Multiple shows found for 'Dexter'. Please be more specific or use the year:\n"
          ++ "• Dexter (2006) - Trakt ID: 11\n"
          ++ "• Dexter: New Blood (2021) - Trakt ID: 22\n")], true⟩ :=
  ⟨rfl, rfl, by simp, by norm_num,
   (((c4_disambiguation clientAmbiguous "Dexter" "Heat" "" 1 1
         ⟨"show", 500, some dexterShow, none⟩ ⟨"movie", 0, none, none⟩
         [⟨"show", 450, some dexterNewBlood, none⟩] []
         dexterShow ⟨"Heat", 1995, ⟨6, "heat-1995", "", 0⟩⟩).1
       rfl rfl).1 (by simp) (by norm_num)).trans (by rfl)⟩

end TraktMcp
